import Mathlib

/-
  Verification of the GDP dashboard core (data access layer and series
  analytics) against its natural-language specification.

  The embedding below translates the two specifiable modules:
  * `src/services/worldBankAPI.ts` — cached fetches of country metadata and
    GDP-per-capita series, with year-over-year growth computation;
  * `src/components/Timeline.tsx` — the `combinedData` year alignment and the
    `comparisonMetrics` computation (ratios, overtakes, average growth diff).

  JavaScript numbers are modelled by `JNum`: an exact rational together with
  the non-finite values `NaN`, `+Infinity`, `-Infinity`, with the IEEE-style
  propagation rules the code can exercise (division by zero, arithmetic on an
  absent/`undefined` field coercing to `NaN`).  Stateful parts (the module
  cache, `Date.now()`, the network) are passed explicitly: a fetch receives
  the network's response, the current time and the cache, and returns the
  result, the new cache and whether a network call was issued.
-/

namespace GDP

/-- JavaScript number values as exercised by this code base: an exact
rational, `NaN`, `+Infinity` or `-Infinity`. -/
inductive JNum where
  | num (q : ℚ)
  | nan
  | inf
  | ninf
deriving DecidableEq, Repr

/-- Coercion of a possibly-absent (`undefined`) numeric field into arithmetic:
an absent operand behaves as `NaN`. -/
def jOfOpt : Option ℚ → JNum
  | none => .nan
  | some q => .num q

/-- Coercion of a possibly-absent (`undefined`) `JNum` field into arithmetic:
an absent operand behaves as `NaN`. -/
def jOfOptJ : Option JNum → JNum
  | none => .nan
  | some g => g

/-- JavaScript addition on `JNum`. -/
def jadd : JNum → JNum → JNum
  | .num a, .num b => .num (a + b)
  | .nan, _ => .nan
  | _, .nan => .nan
  | .inf, .ninf => .nan
  | .ninf, .inf => .nan
  | .inf, _ => .inf
  | _, .inf => .inf
  | .ninf, _ => .ninf
  | _, .ninf => .ninf

/-- JavaScript subtraction on `JNum`. -/
def jsub : JNum → JNum → JNum
  | .num a, .num b => .num (a - b)
  | .nan, _ => .nan
  | _, .nan => .nan
  | .inf, .inf => .nan
  | .ninf, .ninf => .nan
  | .inf, _ => .inf
  | .ninf, _ => .ninf
  | .num _, .inf => .ninf
  | .num _, .ninf => .inf

/-- JavaScript multiplication on `JNum`. -/
def jmul : JNum → JNum → JNum
  | .num a, .num b => .num (a * b)
  | .nan, _ => .nan
  | _, .nan => .nan
  | .inf, .inf => .inf
  | .inf, .ninf => .ninf
  | .ninf, .inf => .ninf
  | .ninf, .ninf => .inf
  | .inf, .num b => if 0 < b then .inf else if b < 0 then .ninf else .nan
  | .num a, .inf => if 0 < a then .inf else if a < 0 then .ninf else .nan
  | .ninf, .num b => if 0 < b then .ninf else if b < 0 then .inf else .nan
  | .num a, .ninf => if 0 < a then .ninf else if a < 0 then .inf else .nan

/-- JavaScript division on `JNum`: division of a nonzero finite number by
zero yields a signed infinity, `0 / 0` yields `NaN`, and `NaN` propagates. -/
def jdiv : JNum → JNum → JNum
  | .nan, _ => .nan
  | _, .nan => .nan
  | .num a, .num b =>
      if b = 0 then (if 0 < a then .inf else if a < 0 then .ninf else .nan)
      else .num (a / b)
  | .num _, .inf => .num 0
  | .num _, .ninf => .num 0
  | .inf, .num b => if b < 0 then .ninf else .inf
  | .ninf, .num b => if b < 0 then .inf else .ninf
  | .inf, _ => .nan
  | .ninf, _ => .nan

/-- JavaScript strict `<` on `JNum`: any comparison involving `NaN` is
false. -/
def jlt : JNum → JNum → Bool
  | .num a, .num b => decide (a < b)
  | .nan, _ => false
  | _, .nan => false
  | .inf, _ => false
  | _, .ninf => false
  | .ninf, _ => true
  | .num _, .inf => true

/-- JavaScript strict `>` on `JNum`. -/
def jgt (a b : JNum) : Bool := jlt b a

/-- Whether a `JNum` is a finite number (neither `NaN` nor an infinity). -/
def JNum.isFinite : JNum → Bool
  | .num _ => true
  | _ => false

/-! ## Data access layer (`src/services/worldBankAPI.ts`) -/

/-- Cache freshness window: 24 hours in milliseconds
(`const CACHE_DURATION = 24 * 60 * 60 * 1000`). -/
def CACHE_DURATION : ℤ := 24 * 60 * 60 * 1000

/-- One cache entry (`interface CacheItem`): the cached payload and the time
it was stored. -/
structure CacheItem (α : Type) where
  data : α
  timestamp : ℤ
deriving DecidableEq, Repr

/-- `isCacheValid`: an entry is fresh while its age is strictly below
`CACHE_DURATION`.  `Date.now()` is passed explicitly as `now`. -/
def isCacheValid (now timestamp : ℤ) : Bool :=
  decide (now - timestamp < CACHE_DURATION)

/-- A remote response as seen by a fetch operation: the network call may fail
outright, or deliver `response.data[1]`, which may be absent. -/
inductive NetResponse (α : Type) where
  | failure
  | success (payload : Option α)
deriving DecidableEq, Repr

instance {ε α : Type} [DecidableEq ε] [DecidableEq α] : DecidableEq (Except ε α)
  | .error a, .error b => decidable_of_iff (a = b) (by simp)
  | .error _, .ok _ => isFalse (by simp)
  | .ok _, .error _ => isFalse (by simp)
  | .ok a, .ok b => decidable_of_iff (a = b) (by simp)

/-- Outcome of a fetch operation: the returned-or-thrown result, the cache
after the call, and whether a network call was issued. -/
structure FetchResult (α : Type) (σ : Type) where
  result : Except String α
  cache : σ
  networkCalled : Bool
deriving DecidableEq, Repr

/-- Overwriting assignment `cache[key] = item` on an association-list cache. -/
def cacheInsert {α : Type} (cache : List (String × CacheItem α)) (key : String)
    (item : CacheItem α) : List (String × CacheItem α) :=
  (key, item) :: cache.filter (fun kv => kv.1 ≠ key)

/-- A raw GDP record from the remote service as consumed by the code:
`{date, value}`, with `date` already read as the integer year. -/
structure RawGDPItem where
  date : ℤ
  value : ℚ
deriving DecidableEq, Repr

/-- A normalized GDP data point `{year, value, growth}`; `growth` is a
JavaScript number since the growth formula can produce non-finite values. -/
structure GDPDataPoint where
  year : ℤ
  value : ℚ
  growth : JNum
deriving DecidableEq, Repr

instance : Inhabited GDPDataPoint := ⟨⟨0, 0, .num 0⟩⟩

/-- First mapping pass of `fetchGDPData`: each raw `{date, value}` entry
becomes `{year: parseInt(item.date), value: item.value, growth: 0}`,
preserving the service's ordering. -/
def mapRaw (raw : List RawGDPItem) : List GDPDataPoint :=
  raw.map fun item => ⟨item.date, item.value, .num 0⟩

/-- Second pass of `fetchGDPData` (`dataWithGrowth`): position `0` keeps
growth `0`; position `index > 0` gets
`((item.value - data[index-1].value) / data[index-1].value) * 100`. -/
def withGrowth (data : List GDPDataPoint) : List GDPDataPoint :=
  (List.range data.length).map fun index =>
    let item := data.getD index default
    { item with
      growth :=
        if index = 0 then .num 0
        else
          jmul
            (jdiv (jsub (.num item.value) (.num (data.getD (index - 1) default).value))
              (.num (data.getD (index - 1) default).value))
            (.num 100) }

/-- The GDP cache slice: entries keyed by the `gdp-...` key. -/
abbrev GDPCache := List (String × CacheItem (List GDPDataPoint))

/-- Cache key of a GDP query:
`gdp-${countryCode}-${startYear}-${endYear}`. -/
def gdpCacheKey (countryCode : String) (startYear endYear : ℤ) : String :=
  "gdp-" ++ countryCode ++ "-" ++ toString startYear ++ "-" ++ toString endYear

/-- The `try`-block of `fetchGDPData` past the cache check: a network failure
or an absent `response.data[1]` throws `Failed to fetch GDP data for ...` and
leaves the cache alone; a payload is mapped, given growth rates, stored in the
cache with the current timestamp, and returned. -/
def fetchGDPDataNet (net : NetResponse (List RawGDPItem)) (now : ℤ)
    (countryCode : String) (startYear endYear : ℤ) (cache : GDPCache) :
    FetchResult (List GDPDataPoint) GDPCache :=
  match net with
  | .failure => ⟨.error ("Failed to fetch GDP data for " ++ countryCode), cache, true⟩
  | .success none => ⟨.error ("Failed to fetch GDP data for " ++ countryCode), cache, true⟩
  | .success (some raw) =>
      let dataWithGrowth := withGrowth (mapRaw raw)
      ⟨.ok dataWithGrowth,
        cacheInsert cache (gdpCacheKey countryCode startYear endYear)
          ⟨dataWithGrowth, now⟩,
        true⟩

/-- `fetchGDPData(countryCode, startYear, endYear)`: return the cached data
when the entry exists and is fresh, without a network call; otherwise perform
the network fetch. -/
def fetchGDPData (net : NetResponse (List RawGDPItem)) (now : ℤ)
    (countryCode : String) (startYear endYear : ℤ) (cache : GDPCache) :
    FetchResult (List GDPDataPoint) GDPCache :=
  match cache.lookup (gdpCacheKey countryCode startYear endYear) with
  | some item =>
      if isCacheValid now item.timestamp then ⟨.ok item.data, cache, false⟩
      else fetchGDPDataNet net now countryCode startYear endYear cache
  | none => fetchGDPDataNet net now countryCode startYear endYear cache

/-- A raw country record from the remote service as consumed by the code:
`{id, name, region: {value}, capitalCity}`.  An aggregate (region or income
grouping) carries an empty `capitalCity`, which is falsy in JavaScript. -/
structure RawCountry where
  id : String
  name : String
  region : String
  capitalCity : String
deriving DecidableEq, Repr

/-- A normalized country `{code, name, region}`. -/
structure Country where
  code : String
  name : String
  region : String
deriving DecidableEq, Repr

/-- The mapping step of `fetchCountries`:
`{code: country.id, name: country.name, region: country.region.value}`. -/
def toCountry (c : RawCountry) : Country :=
  ⟨c.id, c.name, c.region⟩

/-- The country cache slice: entries under the fixed key `countries`. -/
abbrev CountryCache := List (String × CacheItem (List Country))

/-- The `try`-block of `fetchCountries` past the cache check: a network
failure or an absent `response.data[1]` (on which `.filter` would throw)
throws `Failed to fetch countries` and leaves the cache alone; a payload is
filtered on a truthy `capitalCity`, mapped, cached and returned. -/
def fetchCountriesNet (net : NetResponse (List RawCountry)) (now : ℤ)
    (cache : CountryCache) : FetchResult (List Country) CountryCache :=
  match net with
  | .failure => ⟨.error "Failed to fetch countries", cache, true⟩
  | .success none => ⟨.error "Failed to fetch countries", cache, true⟩
  | .success (some raw) =>
      let countries := (raw.filter (fun country => country.capitalCity ≠ "")).map toCountry
      ⟨.ok countries, cacheInsert cache "countries" ⟨countries, now⟩, true⟩

/-- `fetchCountries()`: return the cached list when the `countries` entry
exists and is fresh, without a network call; otherwise perform the network
fetch. -/
def fetchCountries (net : NetResponse (List RawCountry)) (now : ℤ)
    (cache : CountryCache) : FetchResult (List Country) CountryCache :=
  match cache.lookup "countries" with
  | some item =>
      if isCacheValid now item.timestamp then ⟨.ok item.data, cache, false⟩
      else fetchCountriesNet net now cache
  | none => fetchCountriesNet net now cache

/-! ## Series analytics (`src/components/Timeline.tsx`) -/

/-- A political leader annotation (`interface Leader`); auxiliary input data,
never derived by the core. -/
structure Leader where
  name : String
  party : String
  startYear : ℤ
  endYear : ℤ
deriving DecidableEq, Repr

/-- A country series (`interface CountryData`). -/
structure CountryData where
  id : String
  name : String
  gdpData : List GDPDataPoint
  leaders : List Leader
deriving DecidableEq, Repr

/-- One per-country pair of fields of an aligned row:
`dataPoint[id_value]` and `dataPoint[id_growth]`. -/
structure RowEntry where
  countryId : String
  value : ℚ
  growth : JNum
deriving DecidableEq, Repr

/-- One aligned row: the year plus the per-country fields present in it. -/
structure Row where
  year : ℤ
  entries : List RowEntry
deriving DecidableEq, Repr

/-- Field read `row[id_value]`: `none` models `undefined`. -/
def Row.valueOf (r : Row) (id : String) : Option ℚ :=
  (r.entries.find? (fun e => e.countryId == id)).map (·.value)

/-- Field read `row[id_growth]`: `none` models `undefined`. -/
def Row.growthOf (r : Row) (id : String) : Option JNum :=
  (r.entries.find? (fun e => e.countryId == id)).map (·.growth)

/-- `combinedData`: collect every year of every series, deduplicate, sort
ascending, keep the years inside the selected period, and build one row per
year holding `value` and `growth` fields for exactly the countries whose
series contains that year. -/
def combinedData (countryData : List CountryData) (selectedPeriod : ℤ × ℤ) :
    List Row :=
  let allYears := (countryData.flatMap fun country => country.gdpData.map (·.year)).dedup
  ((allYears.insertionSort (· ≤ ·)).filter
      (fun year => decide (selectedPeriod.1 ≤ year ∧ year ≤ selectedPeriod.2))).map
    fun year =>
      { year := year
        entries := countryData.filterMap fun country =>
          (country.gdpData.find? (fun d => d.year == year)).map fun yearData =>
            ⟨country.id, yearData.value, yearData.growth⟩ }

/-- The ratio `data[country1.id_value] / data[country2.id_value]` of a row,
with absent fields behaving as `undefined` (hence `NaN`). -/
def ratioOf (row : Row) (country1 country2 : CountryData) : JNum :=
  jdiv (jOfOpt (row.valueOf country1.id)) (jOfOpt (row.valueOf country2.id))

/-- One recorded overtake `{year, country}`. -/
structure Overtake where
  year : ℤ
  country : String
deriving DecidableEq, Repr

/-- The derived comparison metrics (`interface ComparisonMetrics`). -/
structure ComparisonMetrics where
  startingRatio : JNum
  endingRatio : JNum
  averageGrowthDiff : JNum
  overtakes : List Overtake
deriving DecidableEq, Repr

/-- Body of the overtake-detection `forEach` past the index-`0` guard:
compute the current ratio, record an overtake when the ratio crossed `1`
since the previous row, and advance `prevRatio`. -/
def overtakeStepBody (country1 country2 : CountryData)
    (acc : JNum × List Overtake) (data : Row) : JNum × List Overtake :=
  let prevRatio := acc.1
  let currentRatio := ratioOf data country1 country2
  let overtakes :=
    if (jlt prevRatio (.num 1) && jgt currentRatio (.num 1))
        || (jgt prevRatio (.num 1) && jlt currentRatio (.num 1)) then
      acc.2 ++ [⟨data.year,
        if jgt currentRatio (.num 1) then country1.name else country2.name⟩]
    else acc.2
  (currentRatio, overtakes)

/-- The overtake-detection `forEach` body: `if (index === 0) return;`, then
the crossing test and `prevRatio` update. -/
def overtakeStep (country1 country2 : CountryData)
    (acc : JNum × List Overtake) (p : ℕ × Row) : JNum × List Overtake :=
  if p.1 = 0 then acc else overtakeStepBody country1 country2 acc p.2

/-- Body of the `totalGrowthDiff` reduce past the index-`0` guard: add
`curr[country1.id_growth] - curr[country2.id_growth]`. -/
def growthStepBody (country1 country2 : CountryData) (acc : JNum) (curr : Row) :
    JNum :=
  jadd acc
    (jsub (jOfOptJ (curr.growthOf country1.id)) (jOfOptJ (curr.growthOf country2.id)))

/-- The `totalGrowthDiff` reduce body: index `0` returns the accumulator
unchanged, later indices add the per-row growth difference. -/
def growthStep (country1 country2 : CountryData) (acc : JNum) (p : ℕ × Row) :
    JNum :=
  if p.1 = 0 then acc else growthStepBody country1 country2 acc p.2

/-- `comparisonMetrics`, totalized: `some none` is the `null` returned when
comparison mode is off or the series count is not two; `none` marks the crash
(`TypeError`) the source would hit reading a field of `combinedData[0]` or
`combinedData[length - 1]` when no aligned row exists; `some (some m)` is a
computed metrics object. -/
def comparisonMetrics (comparisonMode : Bool) (countryData : List CountryData)
    (combined : List Row) : Option (Option ComparisonMetrics) :=
  if comparisonMode = false ∨ countryData.length ≠ 2 then some none
  else
    match countryData with
    | [country1, country2] => do
        let firstYear ← combined[0]?
        let lastYear ← combined[combined.length - 1]?
        let startingRatio := ratioOf firstYear country1 country2
        let endingRatio := ratioOf lastYear country1 country2
        let walk := combined.enum.foldl (overtakeStep country1 country2) (startingRatio, [])
        let totalGrowthDiff := combined.enum.foldl (growthStep country1 country2) (.num 0)
        let averageGrowthDiff := jdiv totalGrowthDiff (.num ((combined.length : ℚ) - 1))
        pure (some ⟨startingRatio, endingRatio, averageGrowthDiff, walk.2⟩)
    | _ => some none

/-- Modelled from the spec: the crossing test — the previous ratio is
strictly below `1` and the current strictly above, or vice versa. -/
def crossesOne (prev curr : JNum) : Bool :=
  (jlt prev (.num 1) && jgt curr (.num 1))
    || (jgt prev (.num 1) && jlt curr (.num 1))

/-- Modelled from the spec: walk the aligned rows in order carrying the
previous ratio; on each crossing of `1` record the row's year and the name of
the country whose ratio is now above `1`. -/
def overtakeSpec (country1 country2 : CountryData) :
    JNum → List Row → List Overtake
  | _, [] => []
  | prev, r :: rs =>
      let curr := ratioOf r country1 country2
      (if crossesOne prev curr then
          [⟨r.year, if jgt curr (.num 1) then country1.name else country2.name⟩]
        else [])
        ++ overtakeSpec country1 country2 curr rs

/-- Modelled from the spec: the per-row growth differences
`growth(country1) - growth(country2)` over all aligned rows except the
first. -/
def growthDiffs (country1 country2 : CountryData) (rows : List Row) : List JNum :=
  rows.tail.map fun r =>
    jsub (jOfOptJ (r.growthOf country1.id)) (jOfOptJ (r.growthOf country2.id))

/-! ## Helper lemmas -/

theorem foldl_enumFrom_succ {α β : Type} (g : β → ℕ × α → β) (f : β → α → β)
    (hgs : ∀ acc n a, g acc (n + 1, a) = f acc a) :
    ∀ (l : List α) (k : ℕ) (init : β),
      (List.enumFrom (k + 1) l).foldl g init = l.foldl f init
  | [], _, _ => rfl
  | a :: t, k, init => by
      rw [List.enumFrom_cons, List.foldl_cons, List.foldl_cons, hgs]
      exact foldl_enumFrom_succ g f hgs t (k + 1) (f init a)

/-- A `forEach` over `list.enum` whose body ignores index `0` and treats all
later indices uniformly is the plain fold over the tail. -/
theorem foldl_enum_skipZero {α β : Type} (g : β → ℕ × α → β) (f : β → α → β)
    (hg0 : ∀ acc a, g acc (0, a) = acc)
    (hgs : ∀ acc n a, g acc (n + 1, a) = f acc a)
    (l : List α) (init : β) :
    l.enum.foldl g init = l.tail.foldl f init := by
  cases l with
  | nil => rfl
  | cons a t =>
      rw [List.enum_cons, List.foldl_cons, hg0]
      exact foldl_enumFrom_succ g f hgs t 0 init

/-- The mutable-accumulator overtake walk computes `overtakeSpec`. -/
theorem overtake_foldl_body (country1 country2 : CountryData) :
    ∀ (rows : List Row) (prev : JNum) (acc : List Overtake),
      (rows.foldl (overtakeStepBody country1 country2) (prev, acc)).2
        = acc ++ overtakeSpec country1 country2 prev rows
  | [], prev, acc => by simp [overtakeSpec]
  | r :: rs, prev, acc => by
      rw [List.foldl_cons]
      show (rs.foldl (overtakeStepBody country1 country2)
        (overtakeStepBody country1 country2 (prev, acc) r)).2 = _
      rw [show overtakeStepBody country1 country2 (prev, acc) r
          = (ratioOf r country1 country2,
              acc ++ (if crossesOne prev (ratioOf r country1 country2) then
                [⟨r.year, if jgt (ratioOf r country1 country2) (.num 1) then
                    country1.name else country2.name⟩]
              else [])) from ?_,
        overtake_foldl_body country1 country2 rs, overtakeSpec, List.append_assoc]
      unfold overtakeStepBody crossesOne
      by_cases h : (jlt prev (.num 1) && jgt (ratioOf r country1 country2) (.num 1))
          || (jgt prev (.num 1) && jlt (ratioOf r country1 country2) (.num 1)) <;>
        simp [h]

/-- Evaluation of `comparisonMetrics` in comparison mode on two countries and
a nonempty aligned-row list: no crash, and every component in closed form. -/
theorem comparisonMetrics_eq_cons (country1 country2 : CountryData) (r0 : Row)
    (rest : List Row) :
    comparisonMetrics true [country1, country2] (r0 :: rest) =
      some (some
        { startingRatio := ratioOf r0 country1 country2
          endingRatio := ratioOf (rest.getLast?.getD r0) country1 country2
          averageGrowthDiff :=
            jdiv ((growthDiffs country1 country2 (r0 :: rest)).foldl jadd (.num 0))
              (.num (((r0 :: rest).length : ℚ) - 1))
          overtakes :=
            overtakeSpec country1 country2 (ratioOf r0 country1 country2) rest }) := by
  have hlast : (r0 :: rest)[(r0 :: rest).length - 1]? = some (rest.getLast?.getD r0) := by
    rw [← List.getLast?_eq_getElem?, List.getLast?_cons]
  have hovert : (r0 :: rest).enum.foldl (overtakeStep country1 country2)
      (ratioOf r0 country1 country2, [])
      = (r0 :: rest).tail.foldl (overtakeStepBody country1 country2)
          (ratioOf r0 country1 country2, []) :=
    foldl_enum_skipZero _ _ (fun _ _ => rfl) (fun _ _ _ => rfl) _ _
  have hgrow : (r0 :: rest).enum.foldl (growthStep country1 country2) (.num 0)
      = (growthDiffs country1 country2 (r0 :: rest)).foldl jadd (.num 0) := by
    rw [foldl_enum_skipZero _ (growthStepBody country1 country2)
        (fun _ _ => rfl) (fun _ _ _ => rfl), growthDiffs, List.foldl_map]
    rfl
  simp only [comparisonMetrics]
  rw [if_neg (by simp)]
  simp only [List.getElem?_cons_zero, Option.pure_def, Option.bind_eq_bind,
    Option.some_bind, hlast, hovert, hgrow, List.tail_cons, overtake_foldl_body,
    List.nil_append]

/-- Looking up the key just assigned finds exactly the new entry. -/
theorem lookup_cacheInsert_self {α : Type} (cache : List (String × CacheItem α))
    (key : String) (item : CacheItem α) :
    (cacheInsert cache key item).lookup key = some item := by
  simp [cacheInsert, List.lookup_cons]

/-- A successful network-path GDP fetch pins down the payload, the returned
data and the new cache. -/
theorem fetchGDPDataNet_ok (net : NetResponse (List RawGDPItem)) (now : ℤ)
    (code : String) (sy ey : ℤ) (cache cache1 : GDPCache)
    (d : List GDPDataPoint) (b : Bool)
    (h : fetchGDPDataNet net now code sy ey cache = ⟨.ok d, cache1, b⟩) :
    ∃ raw, net = .success (some raw) ∧ d = withGrowth (mapRaw raw) ∧
      cache1 = cacheInsert cache (gdpCacheKey code sy ey) ⟨d, now⟩ ∧ b = true := by
  cases net with
  | failure => simp [fetchGDPDataNet] at h
  | success p =>
      cases p with
      | none => simp [fetchGDPDataNet] at h
      | some raw =>
          simp only [fetchGDPDataNet, FetchResult.mk.injEq] at h
          obtain ⟨hd, hc, hb⟩ := h
          obtain rfl : d = withGrowth (mapRaw raw) := by
            cases hd
            rfl
          exact ⟨raw, rfl, rfl, hc.symm, hb.symm⟩

/-- A GDP fetch that issued a network call and returned data took the
network path: the payload was present and the cache was overwritten. -/
theorem fetchGDPData_ok_net (net : NetResponse (List RawGDPItem)) (now : ℤ)
    (code : String) (sy ey : ℤ) (cache cache1 : GDPCache) (d : List GDPDataPoint)
    (h : fetchGDPData net now code sy ey cache = ⟨.ok d, cache1, true⟩) :
    ∃ raw, net = .success (some raw) ∧ d = withGrowth (mapRaw raw) ∧
      cache1 = cacheInsert cache (gdpCacheKey code sy ey) ⟨d, now⟩ := by
  unfold fetchGDPData at h
  rcases hl : List.lookup (gdpCacheKey code sy ey) cache with _ | item <;>
    simp only [hl] at h
  · obtain ⟨raw, h1, h2, h3, _⟩ := fetchGDPDataNet_ok _ _ _ _ _ _ _ _ _ h
    exact ⟨raw, h1, h2, h3⟩
  · by_cases hv : isCacheValid now item.timestamp
    · rw [if_pos hv] at h
      simp only [FetchResult.mk.injEq] at h
      exact absurd h.2.2 (by simp)
    · rw [if_neg hv] at h
      obtain ⟨raw, h1, h2, h3, _⟩ := fetchGDPDataNet_ok _ _ _ _ _ _ _ _ _ h
      exact ⟨raw, h1, h2, h3⟩

/-- A fresh cache entry short-circuits `fetchGDPData`: its data is returned,
no network call happens, the cache is untouched. -/
theorem fetchGDPData_fresh_hit (net : NetResponse (List RawGDPItem)) (now : ℤ)
    (code : String) (sy ey : ℤ) (cache : GDPCache)
    (item : CacheItem (List GDPDataPoint))
    (hl : cache.lookup (gdpCacheKey code sy ey) = some item)
    (hv : isCacheValid now item.timestamp = true) :
    fetchGDPData net now code sy ey cache = ⟨.ok item.data, cache, false⟩ := by
  unfold fetchGDPData
  simp only [hl]
  rw [if_pos hv]

/-! ## Claims -/

/-- Claim C4: two calls to `fetchGDPData` with identical arguments within 24
hours of a successful first fetch issue at most one network call and return
identical data — after a first call that issued its network call and
succeeded at time `t0`, any call with the same key at a time `t1` with
`t1 - t0 < 24h` returns the same data from cache, with no network call and no
cache change. -/
theorem c4_cache_idempotent (net1 net2 : NetResponse (List RawGDPItem))
    (t0 t1 : ℤ) (code : String) (sy ey : ℤ) (cache cache1 : GDPCache)
    (d : List GDPDataPoint)
    (h1 : fetchGDPData net1 t0 code sy ey cache = ⟨.ok d, cache1, true⟩)
    (ht : t1 - t0 < CACHE_DURATION) :
    fetchGDPData net2 t1 code sy ey cache1 = ⟨.ok d, cache1, false⟩ := by
  obtain ⟨raw, -, -, hc⟩ := fetchGDPData_ok_net _ _ _ _ _ _ _ _ h1
  subst hc
  exact fetchGDPData_fresh_hit _ _ _ _ _ _ _
    (lookup_cacheInsert_self _ _ _) (by simp [isCacheValid, ht])

/-- Witness for C4 at a concrete series, clock and cache. -/
theorem c4_cache_idempotent_witness :
    fetchGDPData (.success (some [⟨2001, 120⟩])) 1000 "USA" 1980 2023
        (cacheInsert [] (gdpCacheKey "USA" 1980 2023)
          ⟨withGrowth (mapRaw [⟨2000, 100⟩, ⟨2001, 120⟩]), 0⟩)
      = ⟨.ok (withGrowth (mapRaw [⟨2000, 100⟩, ⟨2001, 120⟩])),
          cacheInsert [] (gdpCacheKey "USA" 1980 2023)
            ⟨withGrowth (mapRaw [⟨2000, 100⟩, ⟨2001, 120⟩]), 0⟩,
          false⟩ :=
  c4_cache_idempotent (.success (some [⟨2000, 100⟩, ⟨2001, 120⟩]))
    (.success (some [⟨2001, 120⟩])) 0 1000 "USA" 1980 2023 [] _ _ (by rfl) (by decide)

/-- With an absent or stale cache entry, `fetchGDPData` goes to the
network path. -/
theorem fetchGDPData_stale_or_missing (net : NetResponse (List RawGDPItem))
    (now : ℤ) (code : String) (sy ey : ℤ) (cache : GDPCache)
    (hm : ∀ item, cache.lookup (gdpCacheKey code sy ey) = some item →
      isCacheValid now item.timestamp = false) :
    fetchGDPData net now code sy ey cache
      = fetchGDPDataNet net now code sy ey cache := by
  unfold fetchGDPData
  rcases hl : List.lookup (gdpCacheKey code sy ey) cache with _ | item
  · rfl
  · exact if_neg (by simp [hm item hl])

/-- With an absent or stale cache entry, `fetchCountries` goes to the
network path. -/
theorem fetchCountries_stale_or_missing (net : NetResponse (List RawCountry))
    (now : ℤ) (cache : CountryCache)
    (hm : ∀ item, cache.lookup "countries" = some item →
      isCacheValid now item.timestamp = false) :
    fetchCountries net now cache = fetchCountriesNet net now cache := by
  unfold fetchCountries
  rcases hl : List.lookup "countries" cache with _ | item
  · rfl
  · exact if_neg (by simp [hm item hl])

/-- Claim C7: a failed fetch (network error or missing time-series payload)
throws the `FetchError` message and leaves the cache unchanged, in
`fetchGDPData` as well as `fetchCountries`.  The freshness hypotheses say the
respective cache entry is absent or stale, so the fetch is actually
attempted. -/
theorem c7_failed_fetch_cache_unchanged
    (netg : NetResponse (List RawGDPItem)) (netc : NetResponse (List RawCountry))
    (nowg nowc : ℤ) (code : String) (sy ey : ℤ)
    (cacheG : GDPCache) (cacheC : CountryCache)
    (hg : netg = .failure ∨ netg = .success none)
    (hc : netc = .failure ∨ netc = .success none)
    (hmg : ∀ item, cacheG.lookup (gdpCacheKey code sy ey) = some item →
      isCacheValid nowg item.timestamp = false)
    (hmc : ∀ item, cacheC.lookup "countries" = some item →
      isCacheValid nowc item.timestamp = false) :
    fetchGDPData netg nowg code sy ey cacheG
        = ⟨.error ("Failed to fetch GDP data for " ++ code), cacheG, true⟩ ∧
      fetchCountries netc nowc cacheC
        = ⟨.error "Failed to fetch countries", cacheC, true⟩ := by
  constructor
  · rw [fetchGDPData_stale_or_missing netg nowg code sy ey cacheG hmg]
    rcases hg with rfl | rfl <;> rfl
  · rw [fetchCountries_stale_or_missing netc nowc cacheC hmc]
    rcases hc with rfl | rfl <;> rfl

/-- Witness for C7 at concrete failing responses and a nonempty stale
cache. -/
theorem c7_failed_fetch_cache_unchanged_witness :
    fetchGDPData .failure 0 "USA" 1980 2023
        [(gdpCacheKey "USA" 1980 2023, ⟨[], -CACHE_DURATION⟩)]
        = ⟨.error ("Failed to fetch GDP data for " ++ "USA"),
            [(gdpCacheKey "USA" 1980 2023, ⟨[], -CACHE_DURATION⟩)], true⟩ ∧
      fetchCountries (.success none) 0 []
        = ⟨.error "Failed to fetch countries", [], true⟩ :=
  c7_failed_fetch_cache_unchanged .failure (.success none) 0 0 "USA" 1980 2023
    [(gdpCacheKey "USA" 1980 2023, ⟨[], -CACHE_DURATION⟩)] []
    (Or.inl rfl) (Or.inr rfl)
    (fun item h => by cases h; rfl) (fun item h => by cases h)

/-- Successful network-path country fetch pins down payload, data and new
cache. -/
theorem fetchCountriesNet_ok (net : NetResponse (List RawCountry)) (now : ℤ)
    (cache cache1 : CountryCache) (d : List Country) (b : Bool)
    (h : fetchCountriesNet net now cache = ⟨.ok d, cache1, b⟩) :
    ∃ raw, net = .success (some raw) ∧
      d = (raw.filter (fun country => country.capitalCity ≠ "")).map toCountry ∧
      cache1 = cacheInsert cache "countries" ⟨d, now⟩ ∧ b = true := by
  cases net with
  | failure => simp [fetchCountriesNet] at h
  | success p =>
      cases p with
      | none => simp [fetchCountriesNet] at h
      | some raw =>
          simp only [fetchCountriesNet, FetchResult.mk.injEq] at h
          obtain ⟨hd, hcc, hb⟩ := h
          obtain rfl : d = (raw.filter (fun country => country.capitalCity ≠ "")).map toCountry := by
            cases hd
            rfl
          exact ⟨raw, rfl, rfl, hcc.symm, hb.symm⟩

/-- A country fetch that issued its network call and returned data took the
network path. -/
theorem fetchCountries_ok_net (net : NetResponse (List RawCountry)) (now : ℤ)
    (cache cache1 : CountryCache) (d : List Country)
    (h : fetchCountries net now cache = ⟨.ok d, cache1, true⟩) :
    ∃ raw, net = .success (some raw) ∧
      d = (raw.filter (fun country => country.capitalCity ≠ "")).map toCountry := by
  unfold fetchCountries at h
  rcases hl : List.lookup "countries" cache with _ | item <;> simp only [hl] at h
  · obtain ⟨raw, h1, h2, -, -⟩ := fetchCountriesNet_ok _ _ _ _ _ _ h
    exact ⟨raw, h1, h2⟩
  · by_cases hv : isCacheValid now item.timestamp
    · rw [if_pos hv] at h
      simp only [FetchResult.mk.injEq] at h
      exact absurd h.2.2 (by simp)
    · rw [if_neg hv] at h
      obtain ⟨raw, h1, h2, -, -⟩ := fetchCountriesNet_ok _ _ _ _ _ _ h
      exact ⟨raw, h1, h2⟩

/-- Claim C9: every entry of a fetched country list comes from a remote
record with a (truthy) capital-city attribute, mapped to
`{code, name, region}`, and records lacking one contribute nothing. -/
theorem c9_countries_filtered (raw : List RawCountry) (now : ℤ)
    (cache cache1 : CountryCache) (d : List Country) (x : Country)
    (h : fetchCountries (.success (some raw)) now cache = ⟨.ok d, cache1, true⟩) :
    d = (raw.filter (fun country => country.capitalCity ≠ "")).map toCountry ∧
      (x ∈ d ↔ ∃ s ∈ raw, s.capitalCity ≠ "" ∧ x = toCountry s) := by
  obtain ⟨raw2, hraw, hd⟩ := fetchCountries_ok_net _ _ _ _ _ h
  obtain rfl : raw2 = raw := by
    cases hraw
    rfl
  subst hd
  refine ⟨rfl, ?_⟩
  simp only [List.mem_map, List.mem_filter, decide_not]
  constructor
  · rintro ⟨s, ⟨hs, hcap⟩, rfl⟩
    exact ⟨s, hs, by simpa using hcap, rfl⟩
  · rintro ⟨s, hs, hcap, rfl⟩
    exact ⟨s, ⟨hs, by simpa using hcap⟩, rfl⟩

/-- Witness for C9: one aggregate (empty capital) is dropped, one real
country is kept. -/
theorem c9_countries_filtered_witness :
    ([⟨"USA", "United States", "North America"⟩] : List Country)
        = (([⟨"EUU", "European Union", "Aggregates", ""⟩,
            ⟨"USA", "United States", "North America", "Washington D.C."⟩] :
              List RawCountry).filter (fun country => country.capitalCity ≠ "")).map toCountry ∧
      ((⟨"USA", "United States", "North America"⟩ : Country)
          ∈ ([⟨"USA", "United States", "North America"⟩] : List Country) ↔
        ∃ s ∈ ([⟨"EUU", "European Union", "Aggregates", ""⟩,
            ⟨"USA", "United States", "North America", "Washington D.C."⟩] : List RawCountry),
          s.capitalCity ≠ "" ∧ (⟨"USA", "United States", "North America"⟩ : Country) = toCountry s) :=
  c9_countries_filtered
    [⟨"EUU", "European Union", "Aggregates", ""⟩,
      ⟨"USA", "United States", "North America", "Washington D.C."⟩] 0 [] _
    [⟨"USA", "United States", "North America"⟩]
    ⟨"USA", "United States", "North America"⟩ (by rfl)

/-- Claim C10: in comparison mode with two series but no aligned row, the
computation reads fields of rows that do not exist: in the totalized
embedding the missing-row branch is taken, so no metrics object (not even a
non-finite one) is produced for the empty case. -/
theorem c10_empty_rows_no_metrics (country1 country2 : CountryData) :
    comparisonMetrics true [country1, country2] [] = none := by
  simp only [comparisonMetrics]
  rw [if_neg (by simp)]
  rfl

instance : Inhabited RawGDPItem := ⟨⟨0, 0⟩⟩

theorem length_withGrowth (data : List GDPDataPoint) :
    (withGrowth data).length = data.length := by
  simp [withGrowth]

theorem length_mapRaw (raw : List RawGDPItem) :
    (mapRaw raw).length = raw.length := by
  simp [mapRaw]

theorem withGrowth_getElem?_of_lt (data : List GDPDataPoint) (i : ℕ)
    (hi : i < data.length) :
    (withGrowth data)[i]? = some
      { data.getD i default with
        growth :=
          if i = 0 then .num 0
          else
            jmul
              (jdiv (jsub (.num (data.getD i default).value)
                  (.num (data.getD (i - 1) default).value))
                (.num (data.getD (i - 1) default).value))
              (.num 100) } := by
  unfold withGrowth
  rw [List.getElem?_map, List.getElem?_range hi]
  rfl

theorem mapRaw_getD (raw : List RawGDPItem) (j : ℕ) (hj : j < raw.length) :
    (mapRaw raw).getD j default
      = ⟨(raw.getD j default).date, (raw.getD j default).value, .num 0⟩ := by
  have h : raw[j]? = some raw[j] := List.getElem?_eq_getElem hj
  simp [mapRaw, List.getD_eq_getElem?_getD, List.getElem?_map, h]

/-- Full characterization of a point of `withGrowth (mapRaw raw)`: its year
and value come from the raw entry at the same position, and its growth is `0`
at position `0` and otherwise the percent change against the raw entry at the
previous position. -/
theorem withGrowth_mapRaw_facts (raw : List RawGDPItem) (i : ℕ)
    (pt : GDPDataPoint) (hp : (withGrowth (mapRaw raw))[i]? = some pt) :
    i < raw.length ∧
      pt.year = (raw.getD i default).date ∧
      pt.value = (raw.getD i default).value ∧
      pt.growth =
        (if i = 0 then JNum.num 0
          else
            jmul
              (jdiv (jsub (.num (raw.getD i default).value)
                  (.num (raw.getD (i - 1) default).value))
                (.num (raw.getD (i - 1) default).value))
              (.num 100)) := by
  have hi : i < raw.length := by
    have := List.getElem?_eq_some.mp hp
    obtain ⟨h, -⟩ := this
    rwa [length_withGrowth, length_mapRaw] at h
  have hm : i < (mapRaw raw).length := by rwa [length_mapRaw]
  rw [withGrowth_getElem?_of_lt (mapRaw raw) i hm] at hp
  obtain rfl : pt = _ := (Option.some.injEq _ _).mp hp.symm
  refine ⟨hi, ?_, ?_, ?_⟩
  · rw [mapRaw_getD raw i hi]
  · rw [mapRaw_getD raw i hi]
  · rcases Nat.eq_zero_or_pos i with rfl | hpos
    · simp
    · have h1 : i - 1 < raw.length := by omega
      rw [if_neg (by omega), if_neg (by omega), mapRaw_getD raw i hi,
        mapRaw_getD raw (i - 1) h1]

/-- Claim C1: for a series returned by a (network-path) `fetchGDPData` call,
the service's ordering is preserved — point `i` carries the raw entry `i`'s
year and value — the first point's growth is `0`, and the growth at position
`i + 1` is `(value[i+1] - value[i]) / value[i] * 100` with the predecessor
taken at the previous array position of the returned sequence. -/
theorem c1_growth_by_array_position (raw : List RawGDPItem) (now : ℤ)
    (code : String) (sy ey : ℤ) (cache cache1 : GDPCache)
    (d : List GDPDataPoint)
    (h : fetchGDPData (.success (some raw)) now code sy ey cache
      = ⟨.ok d, cache1, true⟩)
    (i : ℕ) (prev curr first : GDPDataPoint)
    (hp : d[i]? = some prev) (hc : d[i + 1]? = some curr)
    (h0 : d[0]? = some first) :
    d.length = raw.length ∧
      prev.year = (raw.getD i default).date ∧
      prev.value = (raw.getD i default).value ∧
      first.growth = .num 0 ∧
      curr.growth =
        jmul (jdiv (jsub (.num curr.value) (.num prev.value)) (.num prev.value))
          (.num 100) := by
  obtain ⟨raw2, hraw, hd, -⟩ := fetchGDPData_ok_net _ _ _ _ _ _ _ _ h
  have hrw : raw2 = raw := by
    cases hraw
    rfl
  rw [hrw] at hd
  subst hd
  obtain ⟨hi, hy, hv, -⟩ := withGrowth_mapRaw_facts raw i prev hp
  obtain ⟨hi1, -, hv1, hg1⟩ := withGrowth_mapRaw_facts raw (i + 1) curr hc
  obtain ⟨-, -, -, hg0⟩ := withGrowth_mapRaw_facts raw 0 first h0
  refine ⟨by rw [length_withGrowth, length_mapRaw], hy, hv, by simpa using hg0, ?_⟩
  rw [hg1, if_neg (Nat.succ_ne_zero i), Nat.add_sub_cancel, ← hv, ← hv1]

/-- Witness for C1 on a three-point series. -/
theorem c1_growth_by_array_position_witness :
    (withGrowth (mapRaw [⟨2000, 100⟩, ⟨2001, 120⟩, ⟨2003, 60⟩])).length
        = ([⟨2000, 100⟩, ⟨2001, 120⟩, ⟨2003, 60⟩] : List RawGDPItem).length ∧
      (⟨2001, 120, .num 20⟩ : GDPDataPoint).year
        = (([⟨2000, 100⟩, ⟨2001, 120⟩, ⟨2003, 60⟩] : List RawGDPItem).getD 1 default).date ∧
      (⟨2001, 120, .num 20⟩ : GDPDataPoint).value
        = (([⟨2000, 100⟩, ⟨2001, 120⟩, ⟨2003, 60⟩] : List RawGDPItem).getD 1 default).value ∧
      (⟨2000, 100, .num 0⟩ : GDPDataPoint).growth = .num 0 ∧
      (⟨2003, 60, .num (-50)⟩ : GDPDataPoint).growth =
        jmul (jdiv (jsub (.num (⟨2003, 60, .num (-50)⟩ : GDPDataPoint).value)
            (.num (⟨2001, 120, .num 20⟩ : GDPDataPoint).value))
          (.num (⟨2001, 120, .num 20⟩ : GDPDataPoint).value)) (.num 100) :=
  c1_growth_by_array_position [⟨2000, 100⟩, ⟨2001, 120⟩, ⟨2003, 60⟩] 0 "USA" 1980 2023
    [] _ _ (by rfl) 1 ⟨2001, 120, .num 20⟩ ⟨2003, 60, .num (-50)⟩ ⟨2000, 100, .num 0⟩
    (by rw [withGrowth_getElem?_of_lt _ 1 (by simp [mapRaw])]
        norm_num [mapRaw, jsub, jdiv, jmul])
    (by rw [withGrowth_getElem?_of_lt _ 2 (by simp [mapRaw])]
        norm_num [mapRaw, jsub, jdiv, jmul])
    (by rw [withGrowth_getElem?_of_lt _ 0 (by simp [mapRaw])]
        norm_num [mapRaw])

/-- Claim C8: for a series fetched from a payload ordered ascending by year
(the ordering guarantee the code inherits from the service), each point's
growth is computed relative to the immediately preceding year present in the
country's own series: the predecessor point lies strictly before the current
one, any series point chronologically before the current one is no later than
the predecessor, and the growth uses exactly the predecessor's value — gaps
are never interpolated. -/
theorem c8_growth_previous_present_year (raw : List RawGDPItem) (now : ℤ)
    (code : String) (sy ey : ℤ) (cache cache1 : GDPCache)
    (d : List GDPDataPoint)
    (h : fetchGDPData (.success (some raw)) now code sy ey cache
      = ⟨.ok d, cache1, true⟩)
    (hsorted : raw.Pairwise (fun a b => a.date < b.date))
    (i j : ℕ) (prev curr other : GDPDataPoint)
    (hp : d[i]? = some prev) (hc : d[i + 1]? = some curr)
    (hj : d[j]? = some other) (hjy : other.year < curr.year) :
    curr.growth =
        jmul (jdiv (jsub (.num curr.value) (.num prev.value)) (.num prev.value))
          (.num 100) ∧
      prev.year < curr.year ∧ other.year ≤ prev.year := by
  obtain ⟨raw2, hraw, hd, -⟩ := fetchGDPData_ok_net _ _ _ _ _ _ _ _ h
  have hrw : raw2 = raw := by
    cases hraw
    rfl
  rw [hrw] at hd
  subst hd
  obtain ⟨hi, hy, hv, -⟩ := withGrowth_mapRaw_facts raw i prev hp
  obtain ⟨hi1, hy1, hv1, hg1⟩ := withGrowth_mapRaw_facts raw (i + 1) curr hc
  obtain ⟨hjlen, hyj, -, -⟩ := withGrowth_mapRaw_facts raw j other hj
  have hget : ∀ k, ∀ hk : k < raw.length, raw.getD k default = raw.get ⟨k, hk⟩ :=
    fun k hk => by
      rw [List.getD_eq_getElem?_getD, List.getElem?_eq_getElem hk]
      rfl
  have hpair := List.pairwise_iff_getElem.mp hsorted
  have e1 : other.year = raw[j].date := by rw [hyj, hget j hjlen]; rfl
  have e2 : prev.year = raw[i].date := by rw [hy, hget i hi]; rfl
  have e3 : curr.year = raw[i + 1].date := by rw [hy1, hget (i + 1) hi1]; rfl
  have hjy2 : raw[j].date < raw[i + 1].date := by rw [← e1, ← e3]; exact hjy
  refine ⟨?_, ?_, ?_⟩
  · rw [hg1, if_neg (Nat.succ_ne_zero i), Nat.add_sub_cancel, ← hv, ← hv1]
  · rw [e2, e3]
    exact hpair i (i + 1) hi hi1 (by omega)
  · rw [e1, e2]
    rcases Nat.lt_trichotomy j (i + 1) with hlt2 | rfl | hgt
    · rcases Nat.lt_or_ge j i with hji | hij
      · have := hpair j i hjlen hi hji
        omega
      · have : j = i := by omega
        subst this
        omega
    · omega
    · have := hpair (i + 1) j hi1 hjlen hgt
      omega

/-- Witness for C8 on a series with a gap: growth at 2004 uses the contained
predecessor 2003, and the gapped year 2000 stays behind 2003. -/
theorem c8_growth_previous_present_year_witness :
    (⟨2004, 300, .num 50⟩ : GDPDataPoint).growth =
        jmul (jdiv (jsub (.num (⟨2004, 300, .num 50⟩ : GDPDataPoint).value)
            (.num (⟨2003, 200, .num 100⟩ : GDPDataPoint).value))
          (.num (⟨2003, 200, .num 100⟩ : GDPDataPoint).value)) (.num 100) ∧
      (⟨2003, 200, .num 100⟩ : GDPDataPoint).year
          < (⟨2004, 300, .num 50⟩ : GDPDataPoint).year ∧
      (⟨2000, 100, .num 0⟩ : GDPDataPoint).year
          ≤ (⟨2003, 200, .num 100⟩ : GDPDataPoint).year :=
  c8_growth_previous_present_year [⟨2000, 100⟩, ⟨2003, 200⟩, ⟨2004, 300⟩] 0 "USA"
    1980 2023 [] _ _ (by rfl) (by decide) 1 0
    ⟨2003, 200, .num 100⟩ ⟨2004, 300, .num 50⟩ ⟨2000, 100, .num 0⟩
    (by rw [withGrowth_getElem?_of_lt _ 1 (by simp [mapRaw])]
        norm_num [mapRaw, jsub, jdiv, jmul])
    (by rw [withGrowth_getElem?_of_lt _ 2 (by simp [mapRaw])]
        norm_num [mapRaw, jsub, jdiv, jmul])
    (by rw [withGrowth_getElem?_of_lt _ 0 (by simp [mapRaw])]
        norm_num [mapRaw])
    (by decide)

/-- The years of the aligned rows are the sorted deduplicated collected
years, filtered to the selected period. -/
theorem combinedData_years (countryData : List CountryData) (p : ℤ × ℤ) :
    (combinedData countryData p).map Row.year =
      ((countryData.flatMap fun c => c.gdpData.map (·.year)).dedup.insertionSort
          (· ≤ ·)).filter
        (fun year => decide (p.1 ≤ year ∧ year ≤ p.2)) := by
  simp only [combinedData, List.map_map]
  exact List.map_id' _

/-- A year appears among the aligned rows exactly when it lies in the period
and some input series contains it. -/
theorem combinedData_year_mem (countryData : List CountryData) (p : ℤ × ℤ)
    (y : ℤ) :
    y ∈ (combinedData countryData p).map Row.year ↔
      (p.1 ≤ y ∧ y ≤ p.2 ∧ ∃ c ∈ countryData, ∃ pt ∈ c.gdpData, pt.year = y) := by
  rw [combinedData_years]
  simp only [List.mem_filter, decide_eq_true_eq]
  rw [(List.perm_insertionSort _ _).mem_iff]
  simp only [List.mem_dedup, List.mem_flatMap, List.mem_map]
  constructor
  · rintro ⟨⟨c, hc, pt, hpt, rfl⟩, h1, h2⟩
    exact ⟨h1, h2, c, hc, pt, hpt, rfl⟩
  · rintro ⟨h1, h2, c, hc, pt, hpt, rfl⟩
    exact ⟨⟨c, hc, pt, hpt, rfl⟩, h1, h2⟩

/-- The aligned rows are strictly increasing in year: sorted ascending, one
row per year. -/
theorem combinedData_years_sorted (countryData : List CountryData) (p : ℤ × ℤ) :
    ((combinedData countryData p).map Row.year).Pairwise (· < ·) := by
  rw [combinedData_years]
  apply List.Pairwise.filter
  have hs : ((countryData.flatMap fun c => c.gdpData.map (·.year)).dedup.insertionSort
      (· ≤ ·)).Sorted (· ≤ ·) := List.sorted_insertionSort _ _
  have hn : ((countryData.flatMap fun c => c.gdpData.map (·.year)).dedup.insertionSort
      (· ≤ ·)).Nodup :=
    (List.perm_insertionSort _ _).nodup_iff.mpr (List.nodup_dedup _)
  exact (hs.and hn).imp fun h => lt_of_le_of_ne h.1 h.2

/-- With pairwise-distinct country ids, a row of `combinedData` has an entry
for a country exactly when that country's series has a point for the row's
year. -/
theorem combinedData_entry_present (countryData : List CountryData) (p : ℤ × ℤ)
    (hids : (countryData.map CountryData.id).Nodup)
    (r : Row) (hr : r ∈ combinedData countryData p)
    (c : CountryData) (hcmem : c ∈ countryData) :
    (r.entries.find? (fun e => e.countryId == c.id)).isSome = true ↔
      ∃ pt ∈ c.gdpData, pt.year = r.year := by
  simp only [combinedData, List.mem_map] at hr
  obtain ⟨y0, hy0, rfl⟩ := hr
  constructor
  · intro hs
    obtain ⟨e, he, hpe⟩ := List.find?_isSome.mp hs
    obtain ⟨cd, hcd, hsome⟩ := List.mem_filterMap.mp he
    obtain ⟨pt, hptfind, rfl⟩ := Option.map_eq_some'.mp hsome
    have hcdc : cd = c :=
      List.inj_on_of_nodup_map hids hcd hcmem (by simpa using hpe)
    subst hcdc
    have hyear := List.find?_some hptfind
    exact ⟨pt, List.mem_of_find?_eq_some hptfind, by simpa using hyear⟩
  · rintro ⟨pt, hpt, hyr⟩
    apply List.find?_isSome.mpr
    have hfind : (c.gdpData.find? (fun dp => dp.year == y0)).isSome = true :=
      List.find?_isSome.mpr ⟨pt, hpt, by simpa using hyr⟩
    obtain ⟨pt0, hpt0⟩ := Option.isSome_iff_exists.mp hfind
    refine ⟨⟨c.id, pt0.value, pt0.growth⟩, ?_, by simp⟩
    apply List.mem_filterMap.mpr
    refine ⟨c, hcmem, ?_⟩
    rw [hpt0]
    rfl

/-- Claim C2: the aligned output contains exactly the distinct years of the
input series that lie in the closed period, sorted strictly ascending (one
row per year), and a row carries `value`/`growth` fields for a country
exactly when that country's series has a point for that year. -/
theorem c2_align_rows (countryData : List CountryData) (p : ℤ × ℤ)
    (hids : (countryData.map CountryData.id).Nodup)
    (y : ℤ) (r : Row) (hr : r ∈ combinedData countryData p)
    (c : CountryData) (hcmem : c ∈ countryData) :
    ((combinedData countryData p).map Row.year).Pairwise (· < ·) ∧
      (y ∈ (combinedData countryData p).map Row.year ↔
        (p.1 ≤ y ∧ y ≤ p.2 ∧ ∃ cd ∈ countryData, ∃ pt ∈ cd.gdpData, pt.year = y)) ∧
      ((r.valueOf c.id).isSome = true ↔ ∃ pt ∈ c.gdpData, pt.year = r.year) ∧
      ((r.growthOf c.id).isSome = true ↔ ∃ pt ∈ c.gdpData, pt.year = r.year) := by
  have hpresent := combinedData_entry_present countryData p hids r hr c hcmem
  refine ⟨combinedData_years_sorted countryData p,
    combinedData_year_mem countryData p y, ?_, ?_⟩
  · rw [← hpresent, Row.valueOf]
    cases r.entries.find? (fun e => e.countryId == c.id) <;> simp
  · rw [← hpresent, Row.growthOf]
    cases r.entries.find? (fun e => e.countryId == c.id) <;> simp

/-- Witness for C2: two countries, one shared year, one year outside the
period, one year private to one country. -/
theorem c2_align_rows_witness :
    ((combinedData
        [⟨"A", "Aland", [⟨2000, 100, .num 0⟩, ⟨2001, 120, .num 20⟩], []⟩,
          ⟨"B", "Bland", [⟨2000, 110, .num 0⟩, ⟨2005, 90, .num 1⟩], []⟩]
        (2000, 2001)).map Row.year).Pairwise (· < ·) ∧
      ((2001 : ℤ) ∈ (combinedData
          [⟨"A", "Aland", [⟨2000, 100, .num 0⟩, ⟨2001, 120, .num 20⟩], []⟩,
            ⟨"B", "Bland", [⟨2000, 110, .num 0⟩, ⟨2005, 90, .num 1⟩], []⟩]
          (2000, 2001)).map Row.year ↔
        ((2000 : ℤ) ≤ 2001 ∧ (2001 : ℤ) ≤ 2001 ∧
          ∃ cd ∈ [⟨"A", "Aland", [⟨2000, 100, .num 0⟩, ⟨2001, 120, .num 20⟩], []⟩,
            (⟨"B", "Bland", [⟨2000, 110, .num 0⟩, ⟨2005, 90, .num 1⟩], []⟩ : CountryData)],
            ∃ pt ∈ cd.gdpData, pt.year = 2001)) ∧
      ((Row.valueOf ⟨2001, [⟨"A", 120, .num 20⟩]⟩ "B").isSome = true ↔
        ∃ pt ∈ [⟨2000, 110, .num 0⟩, (⟨2005, 90, .num 1⟩ : GDPDataPoint)],
          pt.year = (2001 : ℤ)) ∧
      ((Row.growthOf ⟨2001, [⟨"A", 120, .num 20⟩]⟩ "B").isSome = true ↔
        ∃ pt ∈ [⟨2000, 110, .num 0⟩, (⟨2005, 90, .num 1⟩ : GDPDataPoint)],
          pt.year = (2001 : ℤ)) :=
  c2_align_rows
    [⟨"A", "Aland", [⟨2000, 100, .num 0⟩, ⟨2001, 120, .num 20⟩], []⟩,
      ⟨"B", "Bland", [⟨2000, 110, .num 0⟩, ⟨2005, 90, .num 1⟩], []⟩]
    (2000, 2001) (by decide) 2001 ⟨2001, [⟨"A", 120, .num 20⟩]⟩ (by decide)
    ⟨"B", "Bland", [⟨2000, 110, .num 0⟩, ⟨2005, 90, .num 1⟩], []⟩ (by decide)

/-- Claim C3: the recorded overtakes are exactly the crossings of ratio `1`
between consecutive aligned rows, walking in year order from the first row's
ratio, each crossing recorded with the current row's year and the name of the
country whose ratio is now above `1`; and a ratio exactly equal to `1` never
registers as a cross in either direction. -/
theorem c3_overtakes_are_crossings (country1 country2 : CountryData) (r0 : Row)
    (rest : List Row) (m : ComparisonMetrics)
    (hm : comparisonMetrics true [country1, country2] (r0 :: rest)
      = some (some m))
    (prev curr : JNum) :
    m.overtakes
        = overtakeSpec country1 country2 (ratioOf r0 country1 country2) rest ∧
      crossesOne (.num 1) curr = false ∧ crossesOne prev (.num 1) = false := by
  rw [comparisonMetrics_eq_cons] at hm
  simp only [Option.some.injEq] at hm
  subst hm
  refine ⟨rfl, ?_, ?_⟩
  · simp [crossesOne, jgt, jlt]
  · cases prev <;> simp [crossesOne, jgt, jlt]

/-- Witness for C3 on the spec's own example shape: country A leads the
first two years and trails the last two, so exactly one overtake is
recorded, at the third year, attributed to country B. -/
theorem c3_overtakes_are_crossings_witness :
    (⟨.num 2, .num (1/2), .num 0, [⟨3, "Bland"⟩]⟩ : ComparisonMetrics).overtakes
        = overtakeSpec ⟨"A", "Aland", [], []⟩ ⟨"B", "Bland", [], []⟩
            (ratioOf ⟨1, [⟨"A", 2, .num 0⟩, ⟨"B", 1, .num 0⟩]⟩
              ⟨"A", "Aland", [], []⟩ ⟨"B", "Bland", [], []⟩)
            [⟨2, [⟨"A", 2, .num 0⟩, ⟨"B", 1, .num 0⟩]⟩,
              ⟨3, [⟨"A", 1, .num 0⟩, ⟨"B", 2, .num 0⟩]⟩,
              ⟨4, [⟨"A", 1, .num 0⟩, ⟨"B", 2, .num 0⟩]⟩] ∧
      crossesOne (.num 1) (.num 2) = false ∧
      crossesOne (.num 2) (.num 1) = false :=
  c3_overtakes_are_crossings ⟨"A", "Aland", [], []⟩ ⟨"B", "Bland", [], []⟩
    ⟨1, [⟨"A", 2, .num 0⟩, ⟨"B", 1, .num 0⟩]⟩
    [⟨2, [⟨"A", 2, .num 0⟩, ⟨"B", 1, .num 0⟩]⟩,
      ⟨3, [⟨"A", 1, .num 0⟩, ⟨"B", 2, .num 0⟩]⟩,
      ⟨4, [⟨"A", 1, .num 0⟩, ⟨"B", 2, .num 0⟩]⟩]
    ⟨.num 2, .num (1/2), .num 0, [⟨3, "Bland"⟩]⟩
    (by rw [comparisonMetrics_eq_cons]
        norm_num [ratioOf, jOfOpt, jOfOptJ, jdiv, jsub, jadd,
          jlt, jgt, overtakeSpec, crossesOne, growthDiffs,
          show Row.valueOf ⟨1, [⟨"A", 2, .num 0⟩, ⟨"B", 1, .num 0⟩]⟩ "A" = some 2 from rfl,
          show Row.valueOf ⟨1, [⟨"A", 2, .num 0⟩, ⟨"B", 1, .num 0⟩]⟩ "B" = some 1 from rfl,
          show Row.valueOf ⟨2, [⟨"A", 2, .num 0⟩, ⟨"B", 1, .num 0⟩]⟩ "A" = some 2 from rfl,
          show Row.valueOf ⟨2, [⟨"A", 2, .num 0⟩, ⟨"B", 1, .num 0⟩]⟩ "B" = some 1 from rfl,
          show Row.valueOf ⟨3, [⟨"A", 1, .num 0⟩, ⟨"B", 2, .num 0⟩]⟩ "A" = some 1 from rfl,
          show Row.valueOf ⟨3, [⟨"A", 1, .num 0⟩, ⟨"B", 2, .num 0⟩]⟩ "B" = some 2 from rfl,
          show Row.valueOf ⟨4, [⟨"A", 1, .num 0⟩, ⟨"B", 2, .num 0⟩]⟩ "A" = some 1 from rfl,
          show Row.valueOf ⟨4, [⟨"A", 1, .num 0⟩, ⟨"B", 2, .num 0⟩]⟩ "B" = some 2 from rfl,
          show Row.growthOf ⟨2, [⟨"A", 2, .num 0⟩, ⟨"B", 1, .num 0⟩]⟩ "A" = some (.num 0) from rfl,
          show Row.growthOf ⟨2, [⟨"A", 2, .num 0⟩, ⟨"B", 1, .num 0⟩]⟩ "B" = some (.num 0) from rfl,
          show Row.growthOf ⟨3, [⟨"A", 1, .num 0⟩, ⟨"B", 2, .num 0⟩]⟩ "A" = some (.num 0) from rfl,
          show Row.growthOf ⟨3, [⟨"A", 1, .num 0⟩, ⟨"B", 2, .num 0⟩]⟩ "B" = some (.num 0) from rfl,
          show Row.growthOf ⟨4, [⟨"A", 1, .num 0⟩, ⟨"B", 2, .num 0⟩]⟩ "A" = some (.num 0) from rfl,
          show Row.growthOf ⟨4, [⟨"A", 1, .num 0⟩, ⟨"B", 2, .num 0⟩]⟩ "B" = some (.num 0) from rfl])
    (.num 2) (.num 2)

/-- A row ratio whose denominator field is absent or zero is non-finite. -/
theorem ratio_nonfinite (row : Row) (country1 country2 : CountryData)
    (h : row.valueOf country2.id = none ∨ row.valueOf country2.id = some 0) :
    (ratioOf row country1 country2).isFinite = false := by
  rcases h with h | h <;> rw [ratioOf, h]
  · cases jOfOpt (row.valueOf country1.id) <;> rfl
  · rcases hx : jOfOpt (row.valueOf country1.id) with q | - | - | -
    · show JNum.isFinite
        (if (0 : ℚ) = 0 then
          (if 0 < q then JNum.inf else if q < 0 then JNum.ninf else JNum.nan)
        else JNum.num (q / 0)) = false
      rw [if_pos rfl]
      rcases lt_trichotomy (0 : ℚ) q with hq | hq | hq
      · rw [if_pos hq]
        rfl
      · simp [← hq, JNum.isFinite]
      · rw [if_neg (not_lt.mpr hq.le), if_pos hq]
        rfl
    · rfl
    · show JNum.isFinite (if (0 : ℚ) < 0 then JNum.ninf else JNum.inf) = false
      rw [if_neg (lt_irrefl 0)]
      rfl
    · show JNum.isFinite (if (0 : ℚ) < 0 then JNum.inf else JNum.ninf) = false
      rw [if_neg (lt_irrefl 0)]
      rfl

/-- Claim C5: when the denominator value of the ratio is zero or absent at
the first (resp. last) aligned row, the starting (resp. ending) ratio is a
non-finite number; the metrics object is still produced — the situation is
not an error and nothing is thrown. -/
theorem c5_nonfinite_ratio_propagates (country1 country2 : CountryData)
    (r0 : Row) (rest : List Row) (m : ComparisonMetrics)
    (hm : comparisonMetrics true [country1, country2] (r0 :: rest)
      = some (some m))
    (rl : Row) (hl : (r0 :: rest).getLast? = some rl)
    (h1 : r0.valueOf country2.id = none ∨ r0.valueOf country2.id = some 0)
    (h2 : rl.valueOf country2.id = none ∨ rl.valueOf country2.id = some 0) :
    m.startingRatio.isFinite = false ∧ m.endingRatio.isFinite = false := by
  rw [comparisonMetrics_eq_cons] at hm
  simp only [Option.some.injEq] at hm
  subst hm
  have hrl : rest.getLast?.getD r0 = rl := by
    rw [List.getLast?_cons] at hl
    simpa using hl
  constructor
  · exact ratio_nonfinite r0 country1 country2 h1
  · show (ratioOf (rest.getLast?.getD r0) country1 country2).isFinite = false
    rw [hrl]
    exact ratio_nonfinite rl country1 country2 h2

/-- Witness for C5: a single aligned row with no fields at all yields `NaN`
ratios, and the metrics object is still produced. -/
theorem c5_nonfinite_ratio_propagates_witness :
    JNum.isFinite JNum.nan = false ∧ JNum.isFinite JNum.nan = false :=
  c5_nonfinite_ratio_propagates ⟨"A", "Aland", [], []⟩ ⟨"B", "Bland", [], []⟩
    ⟨2000, []⟩ [] ⟨.nan, .nan, .nan, []⟩
    (by rw [comparisonMetrics_eq_cons]
        norm_num [ratioOf, jOfOpt, jdiv, growthDiffs, overtakeSpec,
          show Row.valueOf ⟨2000, []⟩ "A" = none from rfl,
          show Row.valueOf ⟨2000, []⟩ "B" = none from rfl])
    ⟨2000, []⟩ rfl (Or.inl rfl) (Or.inl rfl)

/-- Claim C6: the average growth difference equals the sum of the per-row
differences `growth(country1) - growth(country2)` over all aligned rows
except the first, divided by `n - 1` where `n` is the number of aligned
rows. -/
theorem c6_average_growth_diff (country1 country2 : CountryData) (r0 : Row)
    (rest : List Row) (m : ComparisonMetrics)
    (hm : comparisonMetrics true [country1, country2] (r0 :: rest)
      = some (some m)) :
    m.averageGrowthDiff =
      jdiv ((growthDiffs country1 country2 (r0 :: rest)).foldl jadd (.num 0))
        (.num (((r0 :: rest).length : ℚ) - 1)) := by
  rw [comparisonMetrics_eq_cons] at hm
  simp only [Option.some.injEq] at hm
  subst hm
  rfl

/-- Witness for C6 on two rows with growth difference `6`. -/
theorem c6_average_growth_diff_witness :
    (⟨.num 2, .num 2, .num 6, []⟩ : ComparisonMetrics).averageGrowthDiff =
      jdiv ((growthDiffs ⟨"A", "Aland", [], []⟩ ⟨"B", "Bland", [], []⟩
          [⟨2000, [⟨"A", 100, .num 0⟩, ⟨"B", 50, .num 0⟩]⟩,
            ⟨2001, [⟨"A", 110, .num 10⟩, ⟨"B", 55, .num 4⟩]⟩]).foldl jadd (.num 0))
        (.num ((([⟨2000, [⟨"A", 100, .num 0⟩, ⟨"B", 50, .num 0⟩]⟩,
            ⟨2001, [⟨"A", 110, .num 10⟩, ⟨"B", 55, .num 4⟩]⟩] : List Row).length : ℚ)
          - 1)) :=
  c6_average_growth_diff ⟨"A", "Aland", [], []⟩ ⟨"B", "Bland", [], []⟩
    ⟨2000, [⟨"A", 100, .num 0⟩, ⟨"B", 50, .num 0⟩]⟩
    [⟨2001, [⟨"A", 110, .num 10⟩, ⟨"B", 55, .num 4⟩]⟩]
    ⟨.num 2, .num 2, .num 6, []⟩
    (by rw [comparisonMetrics_eq_cons]
        norm_num [ratioOf, jOfOpt, jOfOptJ, jdiv, jsub, jadd, jlt, jgt,
          overtakeSpec, crossesOne, growthDiffs,
          show Row.valueOf ⟨2000, [⟨"A", 100, .num 0⟩, ⟨"B", 50, .num 0⟩]⟩ "A"
            = some 100 from rfl,
          show Row.valueOf ⟨2000, [⟨"A", 100, .num 0⟩, ⟨"B", 50, .num 0⟩]⟩ "B"
            = some 50 from rfl,
          show Row.valueOf ⟨2001, [⟨"A", 110, .num 10⟩, ⟨"B", 55, .num 4⟩]⟩ "A"
            = some 110 from rfl,
          show Row.valueOf ⟨2001, [⟨"A", 110, .num 10⟩, ⟨"B", 55, .num 4⟩]⟩ "B"
            = some 55 from rfl,
          show Row.growthOf ⟨2001, [⟨"A", 110, .num 10⟩, ⟨"B", 55, .num 4⟩]⟩ "A"
            = some (.num 10) from rfl,
          show Row.growthOf ⟨2001, [⟨"A", 110, .num 10⟩, ⟨"B", 55, .num 4⟩]⟩ "B"
            = some (.num 4) from rfl])

end GDP
